import Mathlib

/-!
Verification of the SMART-error check engine: a shallow embedding of the two
agent-based plugin variants
(`local/lib/python3/cmk_addons/plugins/smart_errors/agent_based/smart_errors.py`
and
`local/lib/python3/cmk_addons/plugins/oposs_smart_error/agent_based/oposs_smart_error.py`)
together with theorems about parsing, discovery, device-name resolution,
threshold evaluation, metric emission and state aggregation.

Python strings are modelled as `List Char`; `gigabytes_processed` (a Python
float produced by `float(...)`) is modelled exactly as a rational number; the
possibility of an uncaught `ValueError` from `float(...)` is modelled by the
check functions returning `Except`.
-/

/-- Python strings are modelled as lists of characters. -/
abbrev Str := List Char

/-- Turn a Lean string literal into the `Str` model. -/
def chars (s : String) : Str := s.toList

/-- Model of Python `str.strip()`: drop whitespace from both ends. -/
def strip (s : Str) : Str :=
  ((s.dropWhile Char.isWhitespace).reverse.dropWhile Char.isWhitespace).reverse

/-- Split at the first occurrence of `sep`: `some (before, after)` when `sep`
occurs in `s`, `none` otherwise.  Models the combination of Python's
`sep in s` test and `s.split(sep)[0]` (the part before the first occurrence). -/
def findSplit (sep : Str) : Str → Option (Str × Str)
  | [] => none
  | c :: rest =>
    if sep <+: (c :: rest) then some ([], (c :: rest).drop sep.length)
    else
      match findSplit sep rest with
      | some (p, q) => some (c :: p, q)
      | none => none

/-- Model of Python `s.split('/')[-1] if '/' in s else s`: the substring after
the final slash, or the whole string when it has no slash. -/
def lastSlashComponent (p : Str) : Str :=
  p.foldl (fun acc c => if c = '/' then [] else acc ++ [c]) []

/-- Model of Python `str.capitalize()`: first character upper-cased, the rest
lower-cased. -/
def pyCapitalize : Str → Str
  | [] => []
  | c :: rest => c.toUpper :: rest.map Char.toLower

/-- Join a list of strings with a separator (Python `sep.join(parts)`). -/
def joinSep (sep : Str) : List Str → Str
  | [] => []
  | [p] => p
  | p :: rest => p ++ sep ++ joinSep sep rest

/-- Render an integer in decimal (Python `f-string` of an `int`). -/
def intToStr (n : Int) : Str := (toString n).toList

/-- Render a natural number in decimal. -/
def natToStr (n : Nat) : Str := (toString n).toList

/-- The value of `gigabytes_processed` inside the parsed JSON blob: the
collector may serialise it as a JSON number or as a JSON string. -/
inductive GBField
  | jnum (q : ℚ)
  | jstr (s : Str)
deriving DecidableEq

/-- Decimal digits to a natural number. -/
def digitsToNat (l : Str) : Nat := l.foldl (fun acc c => acc * 10 + (c.toNat - '0'.toNat)) 0

/-- Modelled from Python `float(text)` on decimal literals: optional
surrounding whitespace, an optional sign, then digits with an optional
fractional part; anything else fails (raises `ValueError`). -/
def parseDecimal (s : Str) : Option ℚ :=
  let t := strip s
  let su : ℚ × Str :=
    match t with
    | '-' :: rest => (-1, rest)
    | '+' :: rest => (1, rest)
    | _ => (1, t)
  let intPart := su.2.takeWhile Char.isDigit
  let u2 := su.2.drop intPart.length
  match u2 with
  | [] => if intPart = [] then none else some (su.1 * (digitsToNat intPart : ℚ))
  | '.' :: fracRaw =>
    let fracPart := fracRaw.takeWhile Char.isDigit
    if fracRaw.drop fracPart.length ≠ [] then none
    else if intPart = [] ∧ fracPart = [] then none
    else some (su.1 * ((digitsToNat intPart : ℚ) + (digitsToNat fracPart : ℚ) / (10 ^ fracPart.length)))
  | _ => none

deriving instance DecidableEq for Except

/-- Model of Python `float(x)` applied to a JSON value: a number converts to
its rational value, a string is parsed as a decimal literal and any other text
raises `ValueError` (modelled as `Except.error`). -/
def pyFloat : GBField → Except Str ℚ
  | .jnum q => .ok q
  | .jstr s =>
    match parseDecimal s with
    | some q => .ok q
    | none => .error (chars "ValueError: could not convert string to float")

/-- `float(counters.get("gigabytes_processed", "0"))`: a missing field
defaults to the string "0". -/
def floatOfGB (g : Option GBField) : Except Str ℚ := pyFloat (g.getD (.jstr (chars "0")))

/-- One operation's counters as read from the JSON blob (`error_counters`
values); every field may be missing.  Field names follow the local variable
names of the check functions. -/
structure OpCounters where
  eccfast : Option Int := none
  eccdelayed : Option Int := none
  rereads : Option Int := none
  corrected : Option Int := none
  algorithm_invocations : Option Int := none
  gigabytes_processed : Option GBField := none
  uncorrected : Option Int := none
deriving DecidableEq

/-- The JSON blob for one device (schema of section 6 of the design): every
key may be missing; `error_counters` preserves the JSON object's insertion
order. -/
structure DeviceData where
  device : Option Str := none
  protocol : Option Str := none
  model : Option Str := none
  serial : Option Str := none
  capacity_bytes : Option Int := none
  error_counters : Option (List (Str × OpCounters)) := none
deriving DecidableEq

/-- A parsed per-device record: either an error marker (the Python dict
`{"error": message}`) or device data. -/
inductive Record
  | err (message : Str)
  | data (d : DeviceData)
deriving DecidableEq

/-- The parsed section: device name to record, in insertion order (a Python
dict). -/
abbrev Section' := List (Str × Record)

/-- First-match association lookup (Python `d[k]` / `k in d`). -/
def lookup {α : Type} : List (Str × α) → Str → Option α
  | [], _ => none
  | (k', v) :: rest, k => if k' = k then some v else lookup rest k

/-- Python dict assignment `d[k] = v`: replace in place when the key exists,
else append. -/
def insertReplace : Section' → Str → Record → Section'
  | [], k, v => [(k, v)]
  | (k', v') :: rest, k, v =>
    if k' = k then (k, v) :: rest else (k', v') :: insertReplace rest k v

/-- One iteration of the parse loop of `parse_smart_errors` /
`parse_oposs_smart_error` (the two are textually identical): rows with fewer
than two fields are skipped; field 1 equal to "ERROR" makes an error record
with field 2 (or "Unknown error") as message; otherwise field 1 is handed to
the JSON decoder `jloads` (Python `json.loads`, modelled as an arbitrary
partial decoding function), a failure producing the "Invalid JSON data" error
record. -/
def parseLine (jloads : Str → Option DeviceData) (s : Section') (line : List Str) : Section' :=
  match line with
  | f0 :: f1 :: rest =>
    if f1 = chars "ERROR" then
      insertReplace s f0 (.err (rest.headD (chars "Unknown error")))
    else
      match jloads f1 with
      | some d => insertReplace s f0 (.data d)
      | none => insertReplace s f0 (.err (chars "Invalid JSON data"))
  | _ => s

/-- `parse_smart_errors` / `parse_oposs_smart_error`: fold the parse loop over
the agent rows. -/
def parse_smart_errors (jloads : Str → Option DeviceData) (string_table : List (List Str)) :
    Section' :=
  string_table.foldl (parseLine jloads) []

/-- Modelled from the framework renderer `cmk.agent_based.v2.render.bytes`
(not part of this repository): IEC-scaled with two decimals.  Only its
existence, not its exact text, matters to the theorems below. -/
def fmtTwo (q : ℚ) : Str :=
  let c : Int := ⌊q * 100⌋
  let r : Nat := (c % 100).toNat
  intToStr (c / 100) ++ chars "." ++ (if r < 10 then chars "0" else []) ++ natToStr r

/-- Modelled from the framework renderer `render.bytes` (external to this
repository). -/
def renderBytes (q : ℚ) : Str :=
  if 1024 ^ 5 ≤ q then fmtTwo (q / 1024 ^ 5) ++ chars " PiB"
  else if 1024 ^ 4 ≤ q then fmtTwo (q / 1024 ^ 4) ++ chars " TiB"
  else if 1024 ^ 3 ≤ q then fmtTwo (q / 1024 ^ 3) ++ chars " GiB"
  else if 1024 ^ 2 ≤ q then fmtTwo (q / 1024 ^ 2) ++ chars " MiB"
  else if 1024 ≤ q then fmtTwo (q / 1024) ++ chars " KiB"
  else fmtTwo q ++ chars " B"

/-- `_create_device_description` (identical in both plugin variants): model,
"(capacity)", "S/N: last-8-of-serial" when present, joined by spaces and
suffixed with "(basename of device path)"; the bare path when all three are
absent. -/
def _create_device_description (device_path model serial : Str) (capacity_bytes : Int) : Str :=
  let parts : List Str :=
    (if model ≠ [] then [model] else []) ++
    (if 0 < capacity_bytes then [chars "(" ++ renderBytes (capacity_bytes : ℚ) ++ chars ")"] else []) ++
    (if serial ≠ [] then
      [chars "S/N: " ++ (if 8 < serial.length then serial.drop (serial.length - 8) else serial)]
     else [])
  if parts ≠ [] then
    let device_name := lastSlashComponent device_path
    joinSep (chars " ") parts ++ chars " (" ++ device_name ++ chars ")"
  else device_path

/-- Service item construction of `discover_smart_errors` /
`discover_oposs_smart_error`: "{device_name} ({last 8 chars of serial})", or
"{device_name} (no-serial)" when the serial is empty. -/
def serviceItem (device_name serial : Str) : Str :=
  if serial ≠ [] then
    device_name ++ chars " (" ++
      (if 8 < serial.length then serial.drop (serial.length - 8) else serial) ++ chars ")"
  else device_name ++ chars " (no-serial)"

/-- `discover_oposs_smart_error` (textually identical to
`discover_smart_errors`): yield one service item per device whose record is
not an error record. -/
def discover_oposs_smart_error (s : Section') : List Str :=
  s.filterMap fun p =>
    match p.2 with
    | .err _ => none
    | .data d => some (serviceItem p.1 (d.serial.getD []))

/-- Device-name resolution at the start of both check functions: when the item
contains " (" and ends with ")", take the stripped part before the first
" ("; otherwise the stripped item itself. -/
def resolveDevice (item : Str) : Str :=
  match findSplit (chars " (") item with
  | some (pre, _) => if chars ")" <:+ item then strip pre else strip item
  | none => strip item

/-- The CheckMK severity states (framework `State` enum, values 0/1/2/3). -/
inductive CheckState
  | OK
  | WARN
  | CRIT
  | UNKNOWN
deriving DecidableEq

/-- Numeric value of a severity state (the framework enum value; the spec's
total order OK < WARN < CRIT). -/
def CheckState.weight : CheckState → Nat
  | .OK => 0
  | .WARN => 1
  | .CRIT => 2
  | .UNKNOWN => 3

/-- Python `max(state, other)` on severity states: the larger by enum value,
the first argument on ties. -/
def maxState (a b : CheckState) : CheckState :=
  if b.weight ≤ a.weight then a else b

/-- One emission of the check: a `Metric(name, value)` or a
`Result(state=..., summary=...)`. -/
inductive OutputItem
  | metric (name : Str) (value : ℚ)
  | result (state : CheckState) (summary : Str)
deriving DecidableEq

/-- The check parameters: `abs` models the presence of the per-operation
per-kind `(warn, crit)` integer pairs under their `<op>_<kind>_abs` keys
(well-typed as produced by the rulesets), `uncorrected_errors_per_tb` the
optional global rate pair. -/
structure Params where
  abs : Str → Option (Int × Int)
  uncorrected_errors_per_tb : Option (ℚ × ℚ)

/-- The parameter mapping with no key configured. -/
def noParams : Params := ⟨fun _ => none, none⟩

/-- The threshold evaluation the spec calls the Threshold Evaluator, as it
appears in both check functions: `observed >= crit → CRIT`, else
`observed >= warn → WARN`, else `OK`. -/
def evalLevels (observed warn crit : Int) : CheckState :=
  if crit ≤ observed then .CRIT else if warn ≤ observed then .WARN else .OK

/-- Same evaluation for the rational rate thresholds. -/
def evalLevelsRat (observed warn crit : ℚ) : CheckState :=
  if crit ≤ observed then .CRIT else if warn ≤ observed then .WARN else .OK

/-- The repeated threshold block of `check_smart_errors` (lines 202-244): when
a `(warn, crit)` pair is configured, fold the evaluated state into the running
state; otherwise leave the state unchanged. -/
def threshBump (levels : Option (Int × Int)) (observed : Int) (st : CheckState) : CheckState :=
  match levels with
  | some (warn, crit) =>
    if crit ≤ observed then maxState st .CRIT
    else if warn ≤ observed then maxState st .WARN
    else st
  | none => st

/-- Accumulator of the first loop of `check_smart_errors` (lines 128-166):
running totals and the emitted metrics. -/
structure LoopAcc where
  total_corrected : Int
  total_uncorrected : Int
  total_processed_gb : ℚ
  out : List OutputItem
deriving DecidableEq

/-- The six absolute metrics emitted for one operation
(`check_smart_errors` lines 151-157, identical in
`check_oposs_smart_error` lines 160-166). -/
def opAbsBlock (operation : Str) (counters : OpCounters) (processed_gb : ℚ) : List OutputItem :=
  [.metric (operation ++ chars "_errors_corrected_by_eccfast") (counters.eccfast.getD 0 : Int),
   .metric (operation ++ chars "_errors_corrected_by_eccdelayed") (counters.eccdelayed.getD 0 : Int),
   .metric (operation ++ chars "_errors_corrected_by_rereads_rewrites") (counters.rereads.getD 0 : Int),
   .metric (operation ++ chars "_correction_algorithm_invocations") (counters.algorithm_invocations.getD 0 : Int),
   .metric (operation ++ chars "_bytes_processed") (processed_gb * 1024 ^ 3),
   .metric (operation ++ chars "_total_uncorrected_errors") (counters.uncorrected.getD 0 : Int)]

/-- The five per-terabyte metrics of `check_smart_errors` lines 160-166,
emitted only when `processed_gb > 0`. -/
def opTbBlock (operation : Str) (counters : OpCounters) (processed_gb : ℚ) : List OutputItem :=
  let processed_tb := processed_gb / 1024
  [.metric (operation ++ chars "_errors_corrected_by_eccfast_per_tb") ((counters.eccfast.getD 0 : Int) / processed_tb),
   .metric (operation ++ chars "_errors_corrected_by_eccdelayed_per_tb") ((counters.eccdelayed.getD 0 : Int) / processed_tb),
   .metric (operation ++ chars "_errors_corrected_by_rereads_rewrites_per_tb") ((counters.rereads.getD 0 : Int) / processed_tb),
   .metric (operation ++ chars "_correction_algorithm_invocations_per_tb") ((counters.algorithm_invocations.getD 0 : Int) / processed_tb),
   .metric (operation ++ chars "_total_uncorrected_errors_per_tb") ((counters.uncorrected.getD 0 : Int) / processed_tb)]

/-- One iteration of the first loop of `check_smart_errors` (lines 132-166):
extract the counters (missing keys defaulting to 0 and to the string "0" for
`gigabytes_processed`, whose conversion by `float()` may raise), update the
running totals, and emit the absolute metrics plus, when `processed_gb > 0`,
the per-terabyte metrics. -/
def metricsStep (acc : LoopAcc) (p : Str × OpCounters) : Except Str LoopAcc := do
  let operation := p.1
  let counters := p.2
  let corrected := counters.corrected.getD 0
  let processed_gb ← floatOfGB counters.gigabytes_processed
  let uncorrected := counters.uncorrected.getD 0
  return { total_corrected := acc.total_corrected + corrected,
           total_uncorrected := acc.total_uncorrected + uncorrected,
           total_processed_gb := acc.total_processed_gb + processed_gb,
           out := acc.out ++ opAbsBlock operation counters processed_gb ++
             (if 0 < processed_gb then opTbBlock operation counters processed_gb else []) }

/-- The per-operation state evaluation of `check_smart_errors` (lines
180-244): five counter kinds, uncorrected errors falling back to the default
policy "any positive value is critical" when no threshold is configured, the
other four contributing only when a threshold is configured. -/
def opStateEval (params : Params) (operation : Str) (op_data : OpCounters)
    (st0 : CheckState) : CheckState :=
  let uncorrected := op_data.uncorrected.getD 0
  let eccfast := op_data.eccfast.getD 0
  let eccdelayed := op_data.eccdelayed.getD 0
  let rereads := op_data.rereads.getD 0
  let algorithm_invocations := op_data.algorithm_invocations.getD 0
  let st1 :=
    match params.abs (operation ++ chars "_uncorrected_errors_abs") with
    | some levels => threshBump (some levels) uncorrected st0
    | none => if 0 < uncorrected then maxState st0 .CRIT else st0
  let st2 := threshBump (params.abs (operation ++ chars "_eccfast_errors_abs")) eccfast st1
  let st3 := threshBump (params.abs (operation ++ chars "_eccdelayed_errors_abs")) eccdelayed st2
  let st4 := threshBump (params.abs (operation ++ chars "_rereads_rewrites_errors_abs")) rereads st3
  threshBump (params.abs (operation ++ chars "_algorithm_invocations_abs")) algorithm_invocations st4

/-- The state loop of `check_smart_errors` (lines 172-244): fixed operation
order read, write, verify; operations absent from the record are skipped. -/
def stateLoop (params : Params) (error_counters : List (Str × OpCounters)) : CheckState :=
  [chars "read", chars "write", chars "verify"].foldl
    (fun st operation =>
      match lookup error_counters operation with
      | some op_data => opStateEval params operation op_data st
      | none => st) .OK

/-- The rate-based threshold block of `check_smart_errors` (lines 246-258):
only when the accumulated processed gigabytes are positive and the
`uncorrected_errors_per_tb` pair is configured, fold the state evaluated from
the uncorrected-per-terabyte rate into the running state. -/
def rateBump (params : Params) (total_uncorrected : Int) (total_processed_gb : ℚ)
    (st : CheckState) : CheckState :=
  if 0 < total_processed_gb then
    let total_processed_tb := total_processed_gb / 1024
    let total_uncorrected_rate := (total_uncorrected : ℚ) / total_processed_tb
    match params.uncorrected_errors_per_tb with
    | some (warn, crit) =>
      if crit ≤ total_uncorrected_rate then maxState st .CRIT
      else if warn ≤ total_uncorrected_rate then maxState st .WARN
      else st
    | none => st
  else st

/-- The summary composition of `check_smart_errors` (lines 260-294). -/
def buildSummary (device_desc : Str) (error_counters : List (Str × OpCounters))
    (total_uncorrected : Int) (total_processed_gb : ℚ) : Str :=
  let total_eccfast := error_counters.foldl (fun a p => a + p.2.eccfast.getD 0) (0 : Int)
  let total_eccdelayed := error_counters.foldl (fun a p => a + p.2.eccdelayed.getD 0) (0 : Int)
  let total_rereads := error_counters.foldl (fun a p => a + p.2.rereads.getD 0) (0 : Int)
  let parts1 : List Str :=
    if 0 < total_uncorrected then [intToStr total_uncorrected ++ chars " uncorrected errors"] else []
  let correction_parts : List Str :=
    (if 0 < total_eccfast then [intToStr total_eccfast ++ chars " ECC fast"] else []) ++
    (if 0 < total_eccdelayed then [intToStr total_eccdelayed ++ chars " ECC delayed"] else []) ++
    (if 0 < total_rereads then [intToStr total_rereads ++ chars " rereads/rewrites"] else [])
  let parts2 :=
    if correction_parts ≠ [] then
      parts1 ++ [chars "Corrected: " ++ joinSep (chars ", ") correction_parts]
    else parts1
  let parts3 := if parts2 = [] then [chars "No errors detected"] else parts2
  let parts4 :=
    if 0 < total_processed_gb then
      parts3 ++ [renderBytes (total_processed_gb * 1024 ^ 3) ++ chars " processed"]
    else parts3
  device_desc ++ chars ": " ++ joinSep (chars ", ") parts4

/-- `check_smart_errors` after device-name resolution (lines 103-296):
missing-device and error-record short circuits, the no-counters short
circuit, then the metrics loop, the `total_bytes_processed` metric, the state
aggregation and the final summary result. -/
def checkFromDevice_smart (device_name : Str) (params : Params) (s : Section') :
    Except Str (List OutputItem) :=
  match lookup s device_name with
  | none => .ok [.result .UNKNOWN (chars "Device " ++ device_name ++ chars " not found")]
  | some (.err e) => .ok [.result .CRIT (chars "Error: " ++ e)]
  | some (.data d) =>
    let error_counters := d.error_counters.getD []
    let device_info := d.device.getD device_name
    let model := d.model.getD []
    let serial := d.serial.getD []
    let capacity_bytes := d.capacity_bytes.getD 0
    let device_desc := _create_device_description device_info model serial capacity_bytes
    if error_counters = [] then
      .ok [.result .UNKNOWN (device_desc ++ chars ": No error counter data available")]
    else
      match error_counters.foldlM metricsStep ⟨0, 0, 0, []⟩ with
      | .error e => .error e
      | .ok acc =>
        let out := acc.out ++ [.metric (chars "total_bytes_processed") (acc.total_processed_gb * 1024 ^ 3)]
        let st := stateLoop params error_counters
        let st := rateBump params acc.total_uncorrected acc.total_processed_gb st
        let summary := buildSummary device_desc error_counters acc.total_uncorrected acc.total_processed_gb
        .ok (out ++ [.result st summary])

/-- `check_smart_errors`: resolve the device name from the service item, then
run the rest of the check. -/
def check_smart_errors (item : Str) (params : Params) (s : Section') :
    Except Str (List OutputItem) :=
  checkFromDevice_smart (resolveDevice item) params s

/-- Modelled from the framework function `cmk.agent_based.v2.check_levels`
(external to this repository) with fixed upper levels `(warn, crit)` and an
integer render function: a Result whose state is CRIT when `value >= crit`,
WARN when `value >= warn`, else OK, followed by the named Metric. -/
def check_levels (value : Int) (warn crit : Int) (metric_name label : Str) : List OutputItem :=
  [.result (evalLevels value warn crit) (label ++ chars ": " ++ intToStr value),
   .metric metric_name (value : Int)]

/-- Accumulator of the metrics loop of `check_oposs_smart_error` (lines
134-174): per-operation processed gigabytes and the emitted metrics. -/
structure OpossAcc where
  read_processed_gb : ℚ
  write_processed_gb : ℚ
  verify_processed_gb : ℚ
  out : List OutputItem
deriving DecidableEq

/-- The four per-terabyte metrics of `check_oposs_smart_error` lines 169-174
(this variant omits the uncorrected-per-terabyte metric). -/
def opossTbBlock (operation : Str) (counters : OpCounters) (processed_gb : ℚ) : List OutputItem :=
  let processed_tb := processed_gb / 1024
  [.metric (operation ++ chars "_errors_corrected_by_eccfast_per_tb") ((counters.eccfast.getD 0 : Int) / processed_tb),
   .metric (operation ++ chars "_errors_corrected_by_eccdelayed_per_tb") ((counters.eccdelayed.getD 0 : Int) / processed_tb),
   .metric (operation ++ chars "_errors_corrected_by_rereads_rewrites_per_tb") ((counters.rereads.getD 0 : Int) / processed_tb),
   .metric (operation ++ chars "_correction_algorithm_invocations_per_tb") ((counters.algorithm_invocations.getD 0 : Int) / processed_tb)]

/-- One iteration of the metrics loop of `check_oposs_smart_error` (lines
138-174). -/
def opossMetricsStep (acc : OpossAcc) (p : Str × OpCounters) : Except Str OpossAcc := do
  let operation := p.1
  let counters := p.2
  let processed_gb ← floatOfGB counters.gigabytes_processed
  return { read_processed_gb :=
             if operation = chars "read" then acc.read_processed_gb + processed_gb
             else acc.read_processed_gb,
           write_processed_gb :=
             if operation = chars "write" then acc.write_processed_gb + processed_gb
             else acc.write_processed_gb,
           verify_processed_gb :=
             if operation = chars "verify" then acc.verify_processed_gb + processed_gb
             else acc.verify_processed_gb,
           out := acc.out ++ opAbsBlock operation counters processed_gb ++
             (if 0 < processed_gb then opossTbBlock operation counters processed_gb else []) }

/-- The per-operation result block of `check_oposs_smart_error` (lines
185-275): uncorrected errors run through `check_levels` with default levels
(1, 1); the three corrected kinds run through `check_levels` when configured
and are otherwise reported as OK results; algorithm invocations are reported
only when configured. -/
def opossOpResults (params : Params) (operation : Str) (counters : OpCounters) : List OutputItem :=
  let uncorrected := counters.uncorrected.getD 0
  let eccfast := counters.eccfast.getD 0
  let eccdelayed := counters.eccdelayed.getD 0
  let rereads := counters.rereads.getD 0
  let algorithm_invocations := counters.algorithm_invocations.getD 0
  (if 0 < uncorrected then
    let levels := (params.abs (operation ++ chars "_uncorrected_errors_abs")).getD (1, 1)
    check_levels uncorrected levels.1 levels.2 (operation ++ chars "_uncorrected_check")
      (pyCapitalize operation ++ chars " uncorrected errors")
  else []) ++
  (if 0 < eccfast then
    match params.abs (operation ++ chars "_eccfast_errors_abs") with
    | some (warn, crit) =>
      check_levels eccfast warn crit (operation ++ chars "_eccfast_check")
        (pyCapitalize operation ++ chars " ECC fast errors")
    | none => [.result .OK (pyCapitalize operation ++ chars " ECC fast: " ++ intToStr eccfast)]
  else []) ++
  (if 0 < eccdelayed then
    match params.abs (operation ++ chars "_eccdelayed_errors_abs") with
    | some (warn, crit) =>
      check_levels eccdelayed warn crit (operation ++ chars "_eccdelayed_check")
        (pyCapitalize operation ++ chars " ECC delayed errors")
    | none => [.result .OK (pyCapitalize operation ++ chars " ECC delayed: " ++ intToStr eccdelayed)]
  else []) ++
  (if 0 < rereads then
    match params.abs (operation ++ chars "_rereads_rewrites_errors_abs") with
    | some (warn, crit) =>
      check_levels rereads warn crit (operation ++ chars "_rereads_rewrites_check")
        (pyCapitalize operation ++ chars " rereads/rewrites errors")
    | none => [.result .OK (pyCapitalize operation ++ chars " rereads/rewrites: " ++ intToStr rereads)]
  else []) ++
  (if 0 < algorithm_invocations then
    match params.abs (operation ++ chars "_algorithm_invocations_abs") with
    | some (warn, crit) =>
      check_levels algorithm_invocations warn crit (operation ++ chars "_algorithm_invocations_check")
        (pyCapitalize operation ++ chars " algorithm invocations")
    | none => []
  else [])

/-- `check_oposs_smart_error` (lines 100-283): resolution, the three short
circuits, the metrics loop, the OK device-description result, the
per-operation result blocks in the fixed order read/write/verify, and the
per-operation processed-bytes summaries. -/
def check_oposs_smart_error (item : Str) (params : Params) (s : Section') :
    Except Str (List OutputItem) :=
  let device_name := resolveDevice item
  match lookup s device_name with
  | none => .ok [.result .UNKNOWN (chars "Device " ++ device_name ++ chars " not found")]
  | some (.err e) => .ok [.result .CRIT (chars "Error: " ++ e)]
  | some (.data d) =>
    let error_counters := d.error_counters.getD []
    let device_info := d.device.getD device_name
    let model := d.model.getD []
    let serial := d.serial.getD []
    let capacity_bytes := d.capacity_bytes.getD 0
    let device_desc := _create_device_description device_info model serial capacity_bytes
    if error_counters = [] then
      .ok [.result .UNKNOWN (device_desc ++ chars ": No error counter data available")]
    else
      match error_counters.foldlM opossMetricsStep ⟨0, 0, 0, []⟩ with
      | .error e => .error e
      | .ok acc =>
        let results :=
          [chars "read", chars "write", chars "verify"].foldl
            (fun l operation =>
              match lookup error_counters operation with
              | some counters => l ++ opossOpResults params operation counters
              | none => l) []
        let tail :=
          (if 0 < acc.read_processed_gb then
            [.result .OK (chars "Read: " ++ renderBytes (acc.read_processed_gb * 1024 ^ 3) ++ chars " processed")]
          else []) ++
          (if 0 < acc.write_processed_gb then
            [.result .OK (chars "Write: " ++ renderBytes (acc.write_processed_gb * 1024 ^ 3) ++ chars " processed")]
          else []) ++
          (if 0 < acc.verify_processed_gb then
            [.result .OK (chars "Verify: " ++ renderBytes (acc.verify_processed_gb * 1024 ^ 3) ++ chars " processed")]
          else [])
        .ok (acc.out ++ [.result .OK device_desc] ++ results ++ tail)

/-- The severity state of the last Result of a check outcome (the aggregate
state of `check_smart_errors`, whose main path emits exactly one Result, at
the end). -/
def finalState (r : Except Str (List OutputItem)) : Option CheckState :=
  match r with
  | .error _ => none
  | .ok out =>
    out.foldl (fun acc it =>
      match it with
      | .result st _ => some st
      | .metric _ _ => acc) none

/-- The name and value of the last Metric of a check outcome. -/
def lastMetric (out : List OutputItem) : Option (Str × ℚ) :=
  out.foldl (fun acc it =>
    match it with
    | .metric n v => some (n, v)
    | .result _ _ => acc) none

/-! Helper lemmas. -/

theorem maxState_OK (st : CheckState) : maxState st .OK = st := by
  cases st <;> rfl

theorem threshBump_eq_max (warn crit observed : Int) (st : CheckState) :
    threshBump (some (warn, crit)) observed st = maxState st (evalLevels observed warn crit) := by
  simp only [threshBump, evalLevels]
  split_ifs <;> simp [maxState_OK]

theorem lookup_insertReplace (l : Section') (k : Str) (v : Record) :
    lookup (insertReplace l k v) k = some v := by
  induction l with
  | nil => simp [insertReplace, lookup]
  | cons p rest ih =>
    obtain ⟨k', v'⟩ := p
    by_cases hk : k' = k
    · simp [insertReplace, hk, lookup]
    · simp [insertReplace, hk, lookup, ih]

/-! Concrete data for the spec's scenarios. -/

/-- Counters with seven uncorrected read errors and nothing else. -/
def scenarioCounters : OpCounters := { uncorrected := some 7 }

/-- A section with one device whose read counters show 7 uncorrected errors. -/
def scenarioSection : Section' :=
  [(chars "/dev/sda", .data { error_counters := some [(chars "read", scenarioCounters)] })]

/-- A parameter set configuring (warn = 10, crit = 20) for read uncorrected
errors. -/
def scenarioParams : Params :=
  ⟨fun k => if k = chars "read_uncorrected_errors_abs" then some (10, 20) else none, none⟩

unseal Rat.mul Rat.add Rat.inv Rat.sub in
/-- C1: with a configured threshold pair the per-counter evaluation in the
check is the fold of `evalLevels` into the running state, and `evalLevels`
yields CRIT when observed >= crit, WARN when warn <= observed < crit and OK
otherwise; for read total_uncorrected_errors = 7 the whole check aggregates to
CRIT with no threshold configured (default policy) and to OK with
(warn = 10, crit = 20) configured. -/
theorem C1_threshold_evaluation :
    (∀ (st : CheckState) (observed warn crit : Int),
      threshBump (some (warn, crit)) observed st = maxState st (evalLevels observed warn crit)) ∧
    (∀ observed warn crit : Int,
      (crit ≤ observed → evalLevels observed warn crit = .CRIT) ∧
      (warn ≤ observed → observed < crit → evalLevels observed warn crit = .WARN) ∧
      (observed < warn → observed < crit → evalLevels observed warn crit = .OK)) ∧
    finalState (check_smart_errors (chars "/dev/sda (no-serial)") noParams scenarioSection) =
      some .CRIT ∧
    finalState (check_smart_errors (chars "/dev/sda (no-serial)") scenarioParams scenarioSection) =
      some .OK := by
  refine ⟨fun st o w c => threshBump_eq_max w c o st, fun o w c => ⟨?_, ?_, ?_⟩, by decide, by decide⟩
  · intro h; rw [evalLevels, if_pos h]
  · intro h1 h2; rw [evalLevels, if_neg (by omega), if_pos h1]
  · intro h1 h2; rw [evalLevels, if_neg (by omega), if_neg (by omega)]

/-- Witness for C1 at concrete inputs. -/
theorem C1_threshold_evaluation_witness :
    evalLevels 25 10 20 = .CRIT ∧ evalLevels 15 10 20 = .WARN ∧ evalLevels 7 10 20 = .OK :=
  ⟨(C1_threshold_evaluation.2.1 25 10 20).1 (by decide),
   (C1_threshold_evaluation.2.1 15 10 20).2.1 (by decide) (by decide),
   (C1_threshold_evaluation.2.1 7 10 20).2.2 (by decide) (by decide)⟩

/-- C8: for a fixed configured pair (warn, crit) with warn <= crit, the
threshold evaluation is non-decreasing in the observed value under the order
OK < WARN < CRIT. -/
theorem C8_threshold_monotone (warn crit o₁ o₂ : Int) (hwc : warn ≤ crit) (h : o₁ ≤ o₂) :
    (evalLevels o₁ warn crit).weight ≤ (evalLevels o₂ warn crit).weight := by
  simp only [evalLevels]
  split_ifs <;> first | decide | (exfalso; omega)

/-- Witness for C8 at concrete inputs. -/
theorem C8_threshold_monotone_witness :
    (evalLevels 5 10 20).weight ≤ (evalLevels 15 10 20).weight :=
  C8_threshold_monotone 10 20 5 15 (by decide) (by decide)

/-- C10: device-name resolution is total over arbitrary item strings: when the
item does not both contain " (" and end with ")", the whole stripped item is
used as the device name and the check proceeds to the section lookup with it. -/
theorem C10_resolution_total (item : Str) (params : Params) (s : Section')
    (h : ¬ ((findSplit (chars " (") item).isSome = true ∧ chars ")" <:+ item)) :
    resolveDevice item = strip item ∧
    check_smart_errors item params s = checkFromDevice_smart (strip item) params s := by
  have hr : resolveDevice item = strip item := by
    rw [resolveDevice]
    cases hf : findSplit (chars " (") item with
    | none => rfl
    | some p =>
      obtain ⟨pre, post⟩ := p
      have hns : ¬ (chars ")" <:+ item) := fun hs => h ⟨by rw [hf]; rfl, hs⟩
      show (if chars ")" <:+ item then strip pre else strip item) = strip item
      rw [if_neg hns]
  exact ⟨hr, by rw [check_smart_errors, hr]⟩

/-- Witness for C10 at a concrete item without the " (...)" suffix. -/
theorem C10_resolution_total_witness :
    resolveDevice (chars " /dev/sda ") = strip (chars " /dev/sda ") ∧
    check_smart_errors (chars " /dev/sda ") noParams [] =
      checkFromDevice_smart (strip (chars " /dev/sda ")) noParams [] :=
  C10_resolution_total (chars " /dev/sda ") noParams [] (by decide)

/-- C5: the record parser is a total function on row sequences, and for every
input table: a trailing row whose field 1 is literally "ERROR" maps its device
to the error record with message field 2 (or "Unknown error" when absent),
and a trailing row whose field 1 the JSON decoder rejects maps its device to
the "Invalid JSON data" error record. -/
theorem C5_parse_error_rows (jloads : Str → Option DeviceData) (rows : List (List Str))
    (f0 f1 : Str) (rest : List Str) :
    (f1 = chars "ERROR" →
      lookup (parse_smart_errors jloads (rows ++ [f0 :: f1 :: rest])) f0 =
        some (.err (rest.headD (chars "Unknown error")))) ∧
    (f1 ≠ chars "ERROR" → jloads f1 = none →
      lookup (parse_smart_errors jloads (rows ++ [f0 :: f1 :: rest])) f0 =
        some (.err (chars "Invalid JSON data"))) := by
  have hsplit : parse_smart_errors jloads (rows ++ [f0 :: f1 :: rest]) =
      parseLine jloads (parse_smart_errors jloads rows) (f0 :: f1 :: rest) := by
    rw [parse_smart_errors, parse_smart_errors, List.foldl_append, List.foldl_cons, List.foldl_nil]
  constructor
  · intro h
    rw [hsplit, parseLine, if_pos h, lookup_insertReplace]
  · intro h hj
    rw [hsplit, parseLine, if_neg h, hj, lookup_insertReplace]

/-- Witness for C5 at a concrete table and decoder. -/
theorem C5_parse_error_rows_witness :
    lookup (parse_smart_errors (fun _ => none)
        ([[chars "x"]] ++ [[chars "/dev/sdb", chars "ERROR", chars "timeout"]])) (chars "/dev/sdb") =
      some (.err (chars "timeout")) ∧
    lookup (parse_smart_errors (fun _ => none)
        ([] ++ [[chars "/dev/sdc", chars "junk"]])) (chars "/dev/sdc") =
      some (.err (chars "Invalid JSON data")) :=
  ⟨(C5_parse_error_rows (fun _ => none) [[chars "x"]] (chars "/dev/sdb") (chars "ERROR")
      [chars "timeout"]).1 rfl,
   (C5_parse_error_rows (fun _ => none) [] (chars "/dev/sdc") (chars "junk") []).2
      (by decide) rfl⟩


theorem chars_space_paren : chars " (" = [' ', '('] := rfl

theorem findSplit_append_sep (rest : Str) :
    ∀ name : Str, findSplit [' ', '('] name = none →
      findSplit [' ', '('] (name ++ ' ' :: '(' :: rest) = some (name, rest) := by
  intro name
  induction name with
  | nil =>
    intro _
    rw [List.nil_append, findSplit, if_pos ⟨rest, rfl⟩]
    rfl
  | cons c cs ih =>
    intro h
    rw [findSplit] at h
    by_cases hp : [' ', '('] <+: (c :: cs)
    · rw [if_pos hp] at h; exact absurd h (by simp)
    · rw [if_neg hp] at h
      have hrec : findSplit [' ', '('] cs = none := by
        cases hf : findSplit [' ', '('] cs with
        | none => rfl
        | some p => rw [hf] at h; exact absurd h (by simp)
      have hnp : ¬ ([' ', '('] <+: (c :: (cs ++ ' ' :: '(' :: rest))) := by
        rintro ⟨t, ht⟩
        have ht' : ' ' :: '(' :: t = c :: (cs ++ ' ' :: '(' :: rest) := ht
        cases cs with
        | nil =>
          rw [List.nil_append] at ht'
          injection ht' with h1 h2
          injection h2 with h3 h4
          exact absurd h3 (by decide)
        | cons d ds =>
          rw [List.cons_append] at ht'
          injection ht' with h1 h2
          injection h2 with h3 h4
          exact hp ⟨ds, by rw [show ([' ', '('] ++ ds : Str) = ' ' :: '(' :: ds from rfl, h1, h3]⟩
      rw [List.cons_append, findSplit, if_neg hnp, ih hrec]

/-- The first occurrence of " (" in the constructed service item is the
appended one, when the device name itself has none. -/
theorem findSplit_serviceItem (name rest : Str)
    (h : findSplit (chars " (") name = none) :
    findSplit (chars " (") (name ++ ' ' :: '(' :: rest) = some (name, rest) := by
  rw [chars_space_paren] at h ⊢
  exact findSplit_append_sep rest name h

theorem resolveDevice_append (name rest : Str)
    (hns : findSplit (chars " (") name = none)
    (hstrip : strip name = name) :
    resolveDevice (name ++ ' ' :: '(' :: (rest ++ [')'])) = name := by
  rw [resolveDevice, findSplit_serviceItem _ _ hns]
  show (if chars ")" <:+ (name ++ ' ' :: '(' :: (rest ++ [')'])) then strip name
        else strip (name ++ ' ' :: '(' :: (rest ++ [')']))) = name
  have hsfx : chars ")" <:+ (name ++ ' ' :: '(' :: (rest ++ [')'])) := by
    have hshape : name ++ ' ' :: '(' :: (rest ++ [')']) =
        (name ++ ' ' :: '(' :: rest) ++ [')'] := by
      simp
    rw [hshape]
    exact List.suffix_append _ _
  rw [if_pos hsfx, hstrip]

/-- C4 amended: resolution is the inverse of discovery's identity
construction for every device name that contains no " (" and carries no
leading or trailing whitespace, and every serial. -/
theorem C4_roundtrip (device_name serial : Str)
    (hns : findSplit (chars " (") device_name = none)
    (hstrip : strip device_name = device_name) :
    resolveDevice (serviceItem device_name serial) = device_name := by
  rw [serviceItem]
  by_cases hs : serial ≠ []
  · rw [if_pos hs]
    have heq : device_name ++ chars " (" ++
        (if 8 < serial.length then serial.drop (serial.length - 8) else serial) ++ chars ")" =
        device_name ++ ' ' :: '(' ::
          ((if 8 < serial.length then serial.drop (serial.length - 8) else serial) ++ [')']) := by
      rw [chars_space_paren, show chars ")" = [')'] from rfl]
      simp
    rw [heq]
    exact resolveDevice_append _ _ hns hstrip
  · rw [if_neg hs]
    have heq : device_name ++ chars " (no-serial)" =
        device_name ++ ' ' :: '(' :: (chars "no-serial" ++ [')']) := by
      rw [show chars " (no-serial)" = ' ' :: '(' :: (chars "no-serial" ++ [')']) from rfl]
    rw [heq]
    exact resolveDevice_append _ _ hns hstrip

/-- Witness for the amended C4 at a concrete device name and serial. -/
theorem C4_roundtrip_witness :
    resolveDevice (serviceItem (chars "/dev/sda") (chars "1234567890")) = chars "/dev/sda" :=
  C4_roundtrip (chars "/dev/sda") (chars "1234567890") (by decide) (by decide)

/-- C4 counterexample: a device name containing " (" is discovered under an
identity whose resolution does not return the original device name. -/
theorem C4_counterexample :
    discover_oposs_smart_error [(chars "a (b", .data {})] = [chars "a (b (no-serial)"] ∧
    resolveDevice (chars "a (b (no-serial)") = chars "a" ∧
    chars "a" ≠ chars "a (b" := by
  refine ⟨by decide, by decide, by decide⟩

/-- C3: the three short circuits of `check_oposs_smart_error` each produce
exactly one Result and no Metric: device absent from the section yields
UNKNOWN "Device <name> not found", an error record yields CRIT
"Error: <message>", and a data record with an empty error_counters mapping
yields UNKNOWN "<device description>: No error counter data available". -/
theorem C3_short_circuits (item : Str) (params : Params) (s : Section') :
    (lookup s (resolveDevice item) = none →
      check_oposs_smart_error item params s =
        .ok [.result .UNKNOWN (chars "Device " ++ resolveDevice item ++ chars " not found")]) ∧
    (∀ e, lookup s (resolveDevice item) = some (.err e) →
      check_oposs_smart_error item params s =
        .ok [.result .CRIT (chars "Error: " ++ e)]) ∧
    (∀ d, lookup s (resolveDevice item) = some (.data d) → d.error_counters.getD [] = [] →
      check_oposs_smart_error item params s =
        .ok [.result .UNKNOWN
          (_create_device_description (d.device.getD (resolveDevice item)) (d.model.getD [])
              (d.serial.getD []) (d.capacity_bytes.getD 0) ++
            chars ": No error counter data available")]) := by
  refine ⟨fun h => ?_, fun e h => ?_, fun d h hec => ?_⟩
  · simp only [check_oposs_smart_error, h]
  · simp only [check_oposs_smart_error, h]
  · simp only [check_oposs_smart_error, h, hec, if_pos]

/-- Witness for C3: all three short circuits at concrete inputs. -/
theorem C3_short_circuits_witness :
    check_oposs_smart_error (chars "/dev/sdz (no-serial)") noParams [] =
      .ok [.result .UNKNOWN (chars "Device " ++ resolveDevice (chars "/dev/sdz (no-serial)") ++
        chars " not found")] ∧
    check_oposs_smart_error (chars "/dev/sdb (no-serial)") noParams
        [(chars "/dev/sdb", .err (chars "timeout"))] =
      .ok [.result .CRIT (chars "Error: " ++ chars "timeout")] ∧
    check_oposs_smart_error (chars "/dev/sdc (no-serial)") noParams
        [(chars "/dev/sdc", .data {})] =
      .ok [.result .UNKNOWN
        (_create_device_description ((DeviceData.mk none none none none none none).device.getD
            (resolveDevice (chars "/dev/sdc (no-serial)")))
            ((DeviceData.mk none none none none none none).model.getD [])
            ((DeviceData.mk none none none none none none).serial.getD [])
            ((DeviceData.mk none none none none none none).capacity_bytes.getD 0) ++
          chars ": No error counter data available")] :=
  ⟨(C3_short_circuits (chars "/dev/sdz (no-serial)") noParams []).1 (by decide),
   (C3_short_circuits (chars "/dev/sdb (no-serial)") noParams
      [(chars "/dev/sdb", .err (chars "timeout"))]).2.1 (chars "timeout") (by decide),
   (C3_short_circuits (chars "/dev/sdc (no-serial)") noParams
      [(chars "/dev/sdc", .data {})]).2.2 (DeviceData.mk none none none none none none)
      (by decide) (by decide)⟩

/-- The per-counter evaluation states a configured threshold block produces:
one `evalLevels` state when the pair is configured, none otherwise. -/
def threshProduced (levels : Option (Int × Int)) (observed : Int) : List CheckState :=
  match levels with
  | some (warn, crit) => [evalLevels observed warn crit]
  | none => []

/-- The per-counter evaluation states one operation produces in the state
loop of `check_smart_errors`: uncorrected errors produce their configured
evaluation, or CRIT under the default policy when positive; the other four
kinds produce an evaluation only when configured. -/
def opProduced (params : Params) (operation : Str) (op_data : OpCounters) : List CheckState :=
  (match params.abs (operation ++ chars "_uncorrected_errors_abs") with
   | some (warn, crit) => [evalLevels (op_data.uncorrected.getD 0) warn crit]
   | none => if 0 < op_data.uncorrected.getD 0 then [.CRIT] else []) ++
  threshProduced (params.abs (operation ++ chars "_eccfast_errors_abs")) (op_data.eccfast.getD 0) ++
  threshProduced (params.abs (operation ++ chars "_eccdelayed_errors_abs")) (op_data.eccdelayed.getD 0) ++
  threshProduced (params.abs (operation ++ chars "_rereads_rewrites_errors_abs")) (op_data.rereads.getD 0) ++
  threshProduced (params.abs (operation ++ chars "_algorithm_invocations_abs")) (op_data.algorithm_invocations.getD 0)

/-- All per-counter evaluation states one check invocation produces, in the
fixed operation order read, write, verify. -/
def producedStates (params : Params) (error_counters : List (Str × OpCounters)) :
    List CheckState :=
  [chars "read", chars "write", chars "verify"].foldr
    (fun operation acc =>
      match lookup error_counters operation with
      | some op_data => opProduced params operation op_data ++ acc
      | none => acc) []

/-- The state the rate-based total-uncorrected-per-terabyte threshold
produces: one evaluation when the pair is configured and the total processed
gigabytes are positive, none otherwise. -/
def rateProduced (params : Params) (total_uncorrected : Int) (total_processed_gb : ℚ) :
    List CheckState :=
  if 0 < total_processed_gb then
    match params.uncorrected_errors_per_tb with
    | some (warn, crit) =>
      [evalLevelsRat ((total_uncorrected : ℚ) / (total_processed_gb / 1024)) warn crit]
    | none => []
  else []

/-- `s` is the maximum of `l` under the order given by `CheckState.weight`
(OK when `l` produces nothing). -/
def isMaxOf (s : CheckState) (l : List CheckState) : Prop :=
  (∀ x ∈ l, x.weight ≤ s.weight) ∧ (s ∈ l ∨ s = .OK)

theorem foldl_maxState_spec (l : List CheckState) : ∀ st : CheckState,
    st.weight ≤ (l.foldl maxState st).weight ∧
    (∀ x ∈ l, x.weight ≤ (l.foldl maxState st).weight) ∧
    (l.foldl maxState st ∈ l ∨ l.foldl maxState st = st) := by
  induction l with
  | nil => exact fun st => ⟨le_refl _, by simp, Or.inr rfl⟩
  | cons a t ih =>
    intro st
    obtain ⟨h1, h2, h3⟩ := ih (maxState st a)
    have hst : st.weight ≤ (maxState st a).weight := by
      rw [maxState]; split_ifs <;> omega
    have ha : a.weight ≤ (maxState st a).weight := by
      rw [maxState]; split_ifs <;> omega
    have hcase : maxState st a = st ∨ maxState st a = a := by
      rw [maxState]; split_ifs <;> [exact Or.inl rfl; exact Or.inr rfl]
    rw [List.foldl_cons]
    refine ⟨le_trans hst h1, ?_, ?_⟩
    · intro x hx
      rcases List.mem_cons.mp hx with hx | hx
      · subst hx; exact le_trans ha h1
      · exact h2 x hx
    · rcases h3 with h3 | h3
      · exact Or.inl (List.mem_cons_of_mem _ h3)
      · rw [h3]
        rcases hcase with hc | hc
        · exact Or.inr hc
        · rw [hc]; exact Or.inl (List.mem_cons_self _ _)

theorem threshBump_foldl (lv : Option (Int × Int)) (o : Int) (st : CheckState) :
    threshBump lv o st = (threshProduced lv o).foldl maxState st := by
  match lv with
  | none => rfl
  | some (w, c) =>
    rw [threshProduced, List.foldl_cons, List.foldl_nil]
    exact threshBump_eq_max w c o st

theorem opStateEval_foldl (params : Params) (op : Str) (oc : OpCounters) (st : CheckState) :
    opStateEval params op oc st = (opProduced params op oc).foldl maxState st := by
  rw [opStateEval, opProduced]
  rw [List.foldl_append, List.foldl_append, List.foldl_append, List.foldl_append]
  rw [← threshBump_foldl, ← threshBump_foldl, ← threshBump_foldl, ← threshBump_foldl]
  cases hu : params.abs (op ++ chars "_uncorrected_errors_abs") with
  | none =>
    dsimp only
    by_cases h0 : 0 < oc.uncorrected.getD 0
    · rw [if_pos h0, if_pos h0, List.foldl_cons, List.foldl_nil]
    · rw [if_neg h0, if_neg h0, List.foldl_nil]
  | some p =>
    obtain ⟨w, c⟩ := p
    dsimp only
    rw [List.foldl_cons, List.foldl_nil, threshBump_eq_max]

theorem stateLoop_produced (params : Params) (ec : List (Str × OpCounters)) :
    ∀ (ops : List Str) (st : CheckState),
      ops.foldl (fun st operation =>
        match lookup ec operation with
        | some op_data => opStateEval params operation op_data st
        | none => st) st =
      (ops.foldr (fun operation acc =>
        match lookup ec operation with
        | some op_data => opProduced params operation op_data ++ acc
        | none => acc) []).foldl maxState st := by
  intro ops
  induction ops with
  | nil => intro st; rfl
  | cons op rest ih =>
    intro st
    rw [List.foldl_cons, List.foldr_cons]
    cases hl : lookup ec op with
    | none => dsimp only; exact ih st
    | some oc =>
      dsimp only
      rw [List.foldl_append, ← opStateEval_foldl]
      exact ih _

theorem stateLoop_foldl (params : Params) (ec : List (Str × OpCounters)) :
    stateLoop params ec = (producedStates params ec).foldl maxState .OK := by
  rw [stateLoop, producedStates]
  exact stateLoop_produced params ec _ .OK

theorem rateBump_foldl (params : Params) (tu : Int) (tg : ℚ) (st : CheckState) :
    rateBump params tu tg st = (rateProduced params tu tg).foldl maxState st := by
  rw [rateBump, rateProduced]
  by_cases hg : 0 < tg
  · rw [if_pos hg, if_pos hg]
    cases params.uncorrected_errors_per_tb with
    | none => rfl
    | some p =>
      obtain ⟨w, c⟩ := p
      dsimp only
      rw [List.foldl_cons, List.foldl_nil, evalLevelsRat]
      by_cases h1 : c ≤ (tu : ℚ) / (tg / 1024)
      · rw [if_pos h1, if_pos h1]
      · rw [if_neg h1, if_neg h1]
        by_cases h2 : w ≤ (tu : ℚ) / (tg / 1024)
        · rw [if_pos h2, if_pos h2]
        · rw [if_neg h2, if_neg h2, maxState_OK]
  · rw [if_neg hg, if_neg hg, List.foldl_nil]

/-- C2: when the check reaches per-counter evaluation, the state of its final
Result equals the maximum, under OK < WARN < CRIT, of all per-counter
evaluation states produced, with the rate-based total-uncorrected-per-terabyte
evaluation folded into the same maximum exactly when its pair is configured
and the total processed gigabytes are positive. -/
theorem C2_aggregate_is_max (item : Str) (params : Params) (s : Section') (d : DeviceData)
    (acc : LoopAcc)
    (hd : lookup s (resolveDevice item) = some (.data d))
    (hne : d.error_counters.getD [] ≠ [])
    (hfold : (d.error_counters.getD []).foldlM metricsStep ⟨0, 0, 0, []⟩ = .ok acc) :
    ∃ out summary,
      check_smart_errors item params s = .ok out ∧
      out.getLast? = some (.result
        ((producedStates params (d.error_counters.getD []) ++
          rateProduced params acc.total_uncorrected acc.total_processed_gb).foldl maxState .OK)
        summary) ∧
      isMaxOf
        ((producedStates params (d.error_counters.getD []) ++
          rateProduced params acc.total_uncorrected acc.total_processed_gb).foldl maxState .OK)
        (producedStates params (d.error_counters.getD []) ++
          rateProduced params acc.total_uncorrected acc.total_processed_gb) := by
  have hck : check_smart_errors item params s =
      .ok ((acc.out ++
          [.metric (chars "total_bytes_processed") (acc.total_processed_gb * 1024 ^ 3)]) ++
        [.result (rateBump params acc.total_uncorrected acc.total_processed_gb
            (stateLoop params (d.error_counters.getD [])))
          (buildSummary (_create_device_description (d.device.getD (resolveDevice item))
              (d.model.getD []) (d.serial.getD []) (d.capacity_bytes.getD 0))
            (d.error_counters.getD []) acc.total_uncorrected acc.total_processed_gb)]) := by
    rw [check_smart_errors, checkFromDevice_smart, hd]
    dsimp only
    rw [if_neg hne, hfold]
  refine ⟨_, buildSummary (_create_device_description (d.device.getD (resolveDevice item))
      (d.model.getD []) (d.serial.getD []) (d.capacity_bytes.getD 0))
    (d.error_counters.getD []) acc.total_uncorrected acc.total_processed_gb, hck, ?_, ?_⟩
  · rw [List.getLast?_concat]
    have hfoldst : rateBump params acc.total_uncorrected acc.total_processed_gb
        (stateLoop params (d.error_counters.getD [])) =
        (producedStates params (d.error_counters.getD []) ++
          rateProduced params acc.total_uncorrected acc.total_processed_gb).foldl maxState .OK := by
      rw [List.foldl_append, ← stateLoop_foldl, ← rateBump_foldl]
    rw [hfoldst]
  · exact ⟨(foldl_maxState_spec _ .OK).2.1, (foldl_maxState_spec _ .OK).2.2⟩

/-- The device data of the scenario section. -/
def scenarioData : DeviceData := { error_counters := some [(chars "read", scenarioCounters)] }

unseal Rat.mul Rat.add Rat.inv Rat.sub in
/-- Witness for C2 at the concrete scenario section. -/
theorem C2_aggregate_is_max_witness :
    (lookup scenarioSection (resolveDevice (chars "/dev/sda (no-serial)")) =
        some (.data scenarioData) ∧
      scenarioData.error_counters.getD [] ≠ [] ∧
      (scenarioData.error_counters.getD []).foldlM metricsStep ⟨0, 0, 0, []⟩ =
        .ok ⟨0, 7, 0, opAbsBlock (chars "read") scenarioCounters 0⟩) ∧
    (∃ out summary,
      check_smart_errors (chars "/dev/sda (no-serial)") noParams scenarioSection = .ok out ∧
      out.getLast? = some (.result
        ((producedStates noParams (scenarioData.error_counters.getD []) ++
          rateProduced noParams (7 : Int) (0 : ℚ)).foldl maxState .OK) summary) ∧
      isMaxOf
        ((producedStates noParams (scenarioData.error_counters.getD []) ++
          rateProduced noParams (7 : Int) (0 : ℚ)).foldl maxState .OK)
        (producedStates noParams (scenarioData.error_counters.getD []) ++
          rateProduced noParams (7 : Int) (0 : ℚ))) :=
  ⟨⟨by decide, by decide, by decide⟩,
   C2_aggregate_is_max (chars "/dev/sda (no-serial)") noParams scenarioSection scenarioData
     ⟨0, 7, 0, opAbsBlock (chars "read") scenarioCounters 0⟩
     (by decide) (by decide) (by decide)⟩

theorem metricsStep_ok (acc : LoopAcc) (p : Str × OpCounters) (g : ℚ)
    (hg : floatOfGB p.2.gigabytes_processed = .ok g) :
    metricsStep acc p = .ok
      { total_corrected := acc.total_corrected + p.2.corrected.getD 0,
        total_uncorrected := acc.total_uncorrected + p.2.uncorrected.getD 0,
        total_processed_gb := acc.total_processed_gb + g,
        out := acc.out ++ opAbsBlock p.1 p.2 g ++
          (if 0 < g then opTbBlock p.1 p.2 g else []) } := by
  rw [metricsStep, hg]; rfl

theorem metricsStep_err (acc : LoopAcc) (p : Str × OpCounters) (e : Str)
    (hg : floatOfGB p.2.gigabytes_processed = .error e) :
    metricsStep acc p = .error e := by
  rw [metricsStep, hg]; rfl

theorem metricsFold_total (ec : List (Str × OpCounters)) :
    ∀ (acc0 acc : LoopAcc), ec.foldlM metricsStep acc0 = .ok acc →
      ∃ gbs : List ℚ,
        List.Forall₂ (fun (p : Str × OpCounters) (g : ℚ) =>
          floatOfGB p.2.gigabytes_processed = .ok g) ec gbs ∧
        acc.total_processed_gb = acc0.total_processed_gb + gbs.sum := by
  induction ec with
  | nil =>
    intro acc0 acc h
    have h' : (Except.ok acc0 : Except Str LoopAcc) = Except.ok acc := h
    obtain rfl := Except.ok.inj h'
    exact ⟨[], List.Forall₂.nil, by simp⟩
  | cons p t ih =>
    intro acc0 acc h
    rw [List.foldlM_cons] at h
    cases hg : floatOfGB p.2.gigabytes_processed with
    | error e =>
      rw [metricsStep_err _ _ _ hg] at h
      exact Except.noConfusion (show (Except.error e : Except Str LoopAcc) = .ok acc from h)
    | ok g =>
      rw [metricsStep_ok _ _ _ hg] at h
      obtain ⟨gbs, hfa, hsum⟩ := ih _ acc h
      refine ⟨g :: gbs, List.Forall₂.cons hg hfa, ?_⟩
      rw [hsum, List.sum_cons]
      dsimp only
      ring

theorem metricsFold_out_mem (ec : List (Str × OpCounters)) :
    ∀ (acc0 acc : LoopAcc), ec.foldlM metricsStep acc0 = .ok acc →
      ∀ it ∈ acc.out, it ∈ acc0.out ∨
        ∃ p ∈ ec, ∃ g : ℚ, floatOfGB p.2.gigabytes_processed = .ok g ∧
          (it ∈ opAbsBlock p.1 p.2 g ∨ (0 < g ∧ it ∈ opTbBlock p.1 p.2 g)) := by
  induction ec with
  | nil =>
    intro acc0 acc h it hit
    have h' : (Except.ok acc0 : Except Str LoopAcc) = Except.ok acc := h
    obtain rfl := Except.ok.inj h'
    exact Or.inl hit
  | cons p t ih =>
    intro acc0 acc h it hit
    rw [List.foldlM_cons] at h
    cases hg : floatOfGB p.2.gigabytes_processed with
    | error e =>
      rw [metricsStep_err _ _ _ hg] at h
      exact Except.noConfusion (show (Except.error e : Except Str LoopAcc) = .ok acc from h)
    | ok g =>
      rw [metricsStep_ok _ _ _ hg] at h
      rcases ih _ acc h it hit with hin | ⟨q, hq, g', hg', hcase⟩
      · have hin' : it ∈ (acc0.out ++ opAbsBlock p.1 p.2 g) ++
            (if 0 < g then opTbBlock p.1 p.2 g else []) := hin
        rcases List.mem_append.mp hin' with hin2 | hin3
        · rcases List.mem_append.mp hin2 with hin4 | hin5
          · exact Or.inl hin4
          · exact Or.inr ⟨p, List.mem_cons_self _ _, g, hg, Or.inl hin5⟩
        · by_cases hpos : 0 < g
          · rw [if_pos hpos] at hin3
            exact Or.inr ⟨p, List.mem_cons_self _ _, g, hg, Or.inr ⟨hpos, hin3⟩⟩
          · rw [if_neg hpos] at hin3
            exact absurd hin3 (List.not_mem_nil _)
      · exact Or.inr ⟨q, List.mem_cons_of_mem _ hq, g', hg', hcase⟩

theorem metricsFold_err (ec : List (Str × OpCounters)) :
    ∀ acc0 : LoopAcc, (∃ p ∈ ec, ∃ e, floatOfGB p.2.gigabytes_processed = .error e) →
      ∃ e, ec.foldlM metricsStep acc0 = .error e := by
  induction ec with
  | nil =>
    rintro acc0 ⟨p, hp, _⟩
    exact absurd hp (List.not_mem_nil _)
  | cons q t ih =>
    rintro acc0 ⟨p, hp, e, he⟩
    rw [List.foldlM_cons]
    cases hg : floatOfGB q.2.gigabytes_processed with
    | error e' =>
      refine ⟨e', ?_⟩
      rw [metricsStep_err _ _ _ hg]
      rfl
    | ok g =>
      rcases List.mem_cons.mp hp with rfl | hp'
      · rw [hg] at he; exact absurd he (by simp)
      · obtain ⟨e'', h''⟩ := ih
          ({ total_corrected := acc0.total_corrected + q.2.corrected.getD 0,
             total_uncorrected := acc0.total_uncorrected + q.2.uncorrected.getD 0,
             total_processed_gb := acc0.total_processed_gb + g,
             out := acc0.out ++ opAbsBlock q.1 q.2 g ++
               (if 0 < g then opTbBlock q.1 q.2 g else []) } : LoopAcc) ⟨p, hp', e, he⟩
        refine ⟨e'', ?_⟩
        rw [metricsStep_ok _ _ _ hg]
        exact h''

theorem suffix_of_suffix_append {t s : Str} (l : Str) (hlen : t.length ≤ s.length)
    (h : t <:+ l ++ s) : t <:+ s := by
  induction l with
  | nil => exact h
  | cons a l ih =>
    rw [List.cons_append] at h
    rcases List.suffix_cons_iff.mp h with h | h
    · exfalso
      have hl := congrArg List.length h
      simp [List.length_cons, List.length_append] at hl
      omega
    · exact ih h

theorem absBlock_no_per_tb (op : Str) (oc : OpCounters) (g : ℚ) (n : Str) (v : ℚ)
    (h : OutputItem.metric n v ∈ opAbsBlock op oc g) : ¬ chars "_per_tb" <:+ n := by
  intro hsfx
  simp only [opAbsBlock, List.mem_cons, List.not_mem_nil, or_false] at h
  rcases h with h | h | h | h | h | h <;>
    (injection h with hn hv; rw [hn] at hsfx;
     exact absurd (suffix_of_suffix_append _ (by decide) hsfx) (by decide))

/-- C7: on a data record with a non-empty error_counters mapping the check
accumulates the parsed processed gigabytes across all operations and its last
emitted metric is `total_bytes_processed` with value total × 1024³. -/
theorem C7_total_bytes_metric (item : Str) (params : Params) (s : Section') (d : DeviceData)
    (acc : LoopAcc)
    (hd : lookup s (resolveDevice item) = some (.data d))
    (hne : d.error_counters.getD [] ≠ [])
    (hfold : (d.error_counters.getD []).foldlM metricsStep ⟨0, 0, 0, []⟩ = .ok acc) :
    ∃ out, check_smart_errors item params s = .ok out ∧
      lastMetric out = some (chars "total_bytes_processed", acc.total_processed_gb * 1024 ^ 3) ∧
      ∃ gbs : List ℚ,
        List.Forall₂ (fun (p : Str × OpCounters) (g : ℚ) =>
          floatOfGB p.2.gigabytes_processed = .ok g) (d.error_counters.getD []) gbs ∧
        acc.total_processed_gb = gbs.sum := by
  have hck : check_smart_errors item params s =
      .ok ((acc.out ++
          [.metric (chars "total_bytes_processed") (acc.total_processed_gb * 1024 ^ 3)]) ++
        [.result (rateBump params acc.total_uncorrected acc.total_processed_gb
            (stateLoop params (d.error_counters.getD [])))
          (buildSummary (_create_device_description (d.device.getD (resolveDevice item))
              (d.model.getD []) (d.serial.getD []) (d.capacity_bytes.getD 0))
            (d.error_counters.getD []) acc.total_uncorrected acc.total_processed_gb)]) := by
    rw [check_smart_errors, checkFromDevice_smart, hd]
    dsimp only
    rw [if_neg hne, hfold]
  refine ⟨_, hck, ?_, ?_⟩
  · rw [lastMetric, List.foldl_append, List.foldl_append, List.foldl_cons, List.foldl_nil,
      List.foldl_cons, List.foldl_nil]
  · obtain ⟨gbs, hfa, hsum⟩ := metricsFold_total _ _ _ hfold
    refine ⟨gbs, hfa, ?_⟩
    rw [hsum]
    dsimp only
    ring

unseal Rat.mul Rat.add Rat.inv Rat.sub in
/-- Witness for C7 at the concrete scenario section. -/
theorem C7_total_bytes_metric_witness :
    ((scenarioData.error_counters.getD []).foldlM metricsStep ⟨0, 0, 0, []⟩ =
      .ok ⟨0, 7, 0, opAbsBlock (chars "read") scenarioCounters 0⟩) ∧
    (∃ out, check_smart_errors (chars "/dev/sda (no-serial)") noParams scenarioSection = .ok out ∧
      lastMetric out = some (chars "total_bytes_processed", (0 : ℚ) * 1024 ^ 3) ∧
      ∃ gbs : List ℚ,
        List.Forall₂ (fun (p : Str × OpCounters) (g : ℚ) =>
          floatOfGB p.2.gigabytes_processed = .ok g) (scenarioData.error_counters.getD []) gbs ∧
        (0 : ℚ) = gbs.sum) :=
  ⟨by decide,
   C7_total_bytes_metric (chars "/dev/sda (no-serial)") noParams scenarioSection scenarioData
     ⟨0, 7, 0, opAbsBlock (chars "read") scenarioCounters 0⟩
     (by decide) (by decide) (by decide)⟩

/-- Every metric of an operation's per-terabyte block carries that operation's
name as its prefix, completed by one of the "_per_tb" kind suffixes. -/
theorem tbBlock_name (op : Str) (oc : OpCounters) (g : ℚ) (n : Str) (v : ℚ)
    (h : OutputItem.metric n v ∈ opTbBlock op oc g) :
    ∃ k, chars "_per_tb" <:+ k ∧ n = op ++ k := by
  simp only [opTbBlock, List.mem_cons, List.not_mem_nil, or_false] at h
  rcases h with h | h | h | h | h <;>
    (injection h with hn hv; refine ⟨_, ?_, hn⟩; decide)

/-- C6: a per-terabyte metric is emitted only for the operation whose parsed
gigabytes_processed is strictly positive: each such metric belongs to the
per-terabyte block of an operation with positive parsed gigabytes and its name
is that operation's name followed by a "_per_tb" kind suffix; in particular
when every operation parses to 0 processed gigabytes the successful check
emits no metric whose name ends in "_per_tb" (and the division guard is never
entered). -/
theorem C6_per_tb_guard (item : Str) (params : Params) (s : Section') (out : List OutputItem)
    (h : check_smart_errors item params s = .ok out) :
    (∀ n v, OutputItem.metric n v ∈ out → chars "_per_tb" <:+ n →
      ∃ d, lookup s (resolveDevice item) = some (.data d) ∧
        ∃ p ∈ d.error_counters.getD [], ∃ g : ℚ,
          floatOfGB p.2.gigabytes_processed = .ok g ∧ 0 < g ∧
          OutputItem.metric n v ∈ opTbBlock p.1 p.2 g ∧
          ∃ k, chars "_per_tb" <:+ k ∧ n = p.1 ++ k) ∧
    ((∀ d, lookup s (resolveDevice item) = some (.data d) →
        ∀ p ∈ d.error_counters.getD [], floatOfGB p.2.gigabytes_processed = .ok 0) →
      ∀ n v, OutputItem.metric n v ∈ out → ¬ chars "_per_tb" <:+ n) := by
  have main : ∀ n v, OutputItem.metric n v ∈ out → chars "_per_tb" <:+ n →
      ∃ d, lookup s (resolveDevice item) = some (.data d) ∧
        ∃ p ∈ d.error_counters.getD [], ∃ g : ℚ,
          floatOfGB p.2.gigabytes_processed = .ok g ∧ 0 < g ∧
          OutputItem.metric n v ∈ opTbBlock p.1 p.2 g ∧
          ∃ k, chars "_per_tb" <:+ k ∧ n = p.1 ++ k := by
    intro n v hmem hsfx
    rw [check_smart_errors, checkFromDevice_smart] at h
    cases hd : lookup s (resolveDevice item) with
    | none =>
      rw [hd] at h
      obtain rfl := Except.ok.inj h
      simp at hmem
    | some r =>
      cases r with
      | err e =>
        rw [hd] at h
        obtain rfl := Except.ok.inj h
        simp at hmem
      | data d =>
        rw [hd] at h
        dsimp only at h
        by_cases hne : d.error_counters.getD [] = []
        · rw [if_pos hne] at h
          obtain rfl := Except.ok.inj h
          simp at hmem
        · rw [if_neg hne] at h
          cases hf : (d.error_counters.getD []).foldlM metricsStep ⟨0, 0, 0, []⟩ with
          | error e =>
            rw [hf] at h
            exact Except.noConfusion h
          | ok acc =>
            rw [hf] at h
            obtain rfl := Except.ok.inj h
            rcases List.mem_append.mp hmem with hmem1 | hmem2
            · rcases List.mem_append.mp hmem1 with hacc | htot
              · rcases metricsFold_out_mem _ _ _ hf _ hacc with habs | ⟨p, hp, g, hg, hcase⟩
                · exact absurd habs (List.not_mem_nil _)
                · rcases hcase with habs | ⟨hpos, htb⟩
                  · exact absurd hsfx (absBlock_no_per_tb _ _ _ _ _ habs)
                  · exact ⟨d, rfl, p, hp, g, hg, hpos, htb, tbBlock_name _ _ _ _ _ htb⟩
              · rcases List.mem_singleton.mp htot with h'
                injection h' with hn hv
                rw [hn] at hsfx
                exact absurd hsfx (by decide)
            · rcases List.mem_singleton.mp hmem2 with h'
              exact OutputItem.noConfusion h'
  refine ⟨main, fun hz n v hmem hsfx => ?_⟩
  obtain ⟨d, hd, p, hp, g, hg, hpos, -, -⟩ := main n v hmem hsfx
  have hz' := hz d hd p hp
  rw [hg] at hz'
  obtain rfl := Except.ok.inj hz'
  exact absurd hpos (lt_irrefl 0)

unseal Rat.mul Rat.add Rat.inv Rat.sub in
/-- Witness for C6 at the concrete scenario section (all processed gigabytes
zero). -/
theorem C6_per_tb_guard_witness :
    (check_smart_errors (chars "/dev/sda (no-serial)") noParams scenarioSection =
      .ok ((opAbsBlock (chars "read") scenarioCounters 0 ++
          [.metric (chars "total_bytes_processed") ((0 : ℚ) * 1024 ^ 3)]) ++
        [.result (rateBump noParams 7 0 (stateLoop noParams [(chars "read", scenarioCounters)]))
          (buildSummary (_create_device_description (chars "/dev/sda") [] [] 0)
            [(chars "read", scenarioCounters)] 7 0)])) ∧
    (∀ n v, OutputItem.metric n v ∈
        ((opAbsBlock (chars "read") scenarioCounters 0 ++
          [.metric (chars "total_bytes_processed") ((0 : ℚ) * 1024 ^ 3)]) ++
        [.result (rateBump noParams 7 0 (stateLoop noParams [(chars "read", scenarioCounters)]))
          (buildSummary (_create_device_description (chars "/dev/sda") [] [] 0)
            [(chars "read", scenarioCounters)] 7 0)]) →
      chars "_per_tb" <:+ n →
      ∃ d, lookup scenarioSection (resolveDevice (chars "/dev/sda (no-serial)")) =
          some (.data d) ∧
        ∃ p ∈ d.error_counters.getD [], ∃ g : ℚ,
          floatOfGB p.2.gigabytes_processed = .ok g ∧ 0 < g ∧
          OutputItem.metric n v ∈ opTbBlock p.1 p.2 g ∧
          ∃ k, chars "_per_tb" <:+ k ∧ n = p.1 ++ k) :=
  ⟨by decide,
   (C6_per_tb_guard (chars "/dev/sda (no-serial)") noParams scenarioSection _ (by decide)).1⟩

/-- Counters whose gigabytes_processed field holds malformed numeric text. -/
def malformedCounters : OpCounters := { gigabytes_processed := some (.jstr (chars "abc")) }

/-- Device data holding the malformed counters under "read". -/
def malformedData : DeviceData := { error_counters := some [(chars "read", malformedCounters)] }

/-- A section whose read counters carry malformed numeric text in
gigabytes_processed. -/
def malformedSection : Section' := [(chars "/dev/sdb", .data malformedData)]

unseal Rat.mul Rat.add Rat.inv Rat.sub in
/-- C9 counterexample: malformed numeric text in gigabytes_processed does not
become a record-level tagged outcome; the conversion error escapes the check
invocation (Python: an uncaught ValueError from float()). -/
theorem C9_counterexample :
    check_smart_errors (chars "/dev/sdb (no-serial)") noParams malformedSection =
      .error (chars "ValueError: could not convert string to float") := by decide

unseal Rat.mul Rat.add Rat.inv Rat.sub in
/-- C9 amended: missing numeric fields do default to 0 / "0", but malformed
numeric text in gigabytes_processed makes the whole check invocation fail with
an unhandled conversion error instead of a record-level error outcome. -/
theorem C9_malformed_gb_crashes (item : Str) (params : Params) (s : Section') (d : DeviceData)
    (p : Str × OpCounters) (e : Str)
    (hd : lookup s (resolveDevice item) = some (.data d))
    (hne : d.error_counters.getD [] ≠ [])
    (hp : p ∈ d.error_counters.getD [])
    (hbad : floatOfGB p.2.gigabytes_processed = .error e) :
    (∃ e', check_smart_errors item params s = .error e') ∧
    floatOfGB none = .ok 0 := by
  constructor
  · obtain ⟨e', hf⟩ := metricsFold_err _ ⟨0, 0, 0, []⟩ ⟨p, hp, e, hbad⟩
    refine ⟨e', ?_⟩
    rw [check_smart_errors, checkFromDevice_smart, hd]
    dsimp only
    rw [if_neg hne, hf]
  · decide

/-- Witness for the amended C9 at the concrete malformed section. -/
theorem C9_malformed_gb_crashes_witness :
    ((∃ e', check_smart_errors (chars "/dev/sdb (no-serial)") noParams malformedSection =
        .error e') ∧
      floatOfGB none = .ok 0) :=
  C9_malformed_gb_crashes (chars "/dev/sdb (no-serial)") noParams malformedSection
    malformedData (chars "read", malformedCounters)
    (chars "ValueError: could not convert string to float")
    (by decide) (by decide) (by decide) (by decide)
